import Mathlib

/-!
Shallow embedding of the job-lifecycle reconciliation engine of the
Sora2_Tool repository (`src/lib/video-service.ts`, `src/lib/sora-api.ts`,
`src/lib/supabase.ts`), together with theorems settling the claims about it.

I/O boundaries (the Supabase repository, Supabase storage and the remote
OpenAI API) are modelled as explicit outcome parameters: each call the
engine makes is represented by the value that call would have produced
(`EngineResult.ok` for a resolved promise carrying data, `EngineResult.err`
for a rejected promise carrying the thrown error's message).  The job table
is threaded explicitly as the `Option VideoGeneration` row addressed by the
generation id under consideration.  Timestamps are carried verbatim and
never touched, matching the TypeScript code, which never writes them.
-/

namespace Sora2Tool

/-- Outcome of an awaited asynchronous call: `ok` for a resolved value,
`err` for a rejected promise carrying the thrown error's message
(`error instanceof Error ? error.message : ...` in the source). -/
inductive EngineResult (α : Type) where
  | ok (value : α)
  | err (message : String)
deriving DecidableEq, Repr

/-- The `error` object of a remote video response
(`VideoGenerationResponse.error` in `src/lib/sora-api.ts`). -/
structure RemoteError where
  message : String
  type : String
  code : String
deriving DecidableEq, Repr

/-- Type `VideoGenerationResponse` from `src/lib/sora-api.ts`: the raw payload the
remote API returns from job creation and from status fetches. -/
structure VideoGenerationResponse where
  id : String
  object : String
  model : String
  status : String
  prompt : String
  created_at : Nat
  url : Option String := none
  download_url : Option String := none
  progress : Option Nat := none
  error : Option RemoteError := none
deriving DecidableEq, Repr

/-- The `video_generations` row type (`VideoGeneration` in
`src/lib/supabase.ts`).  `metadata` is a JSON column the engine only ever
writes whole remote responses into; it is modelled as
`Option VideoGenerationResponse`, `none` standing for the initial empty
object. -/
structure VideoGeneration where
  id : String
  created_at : String
  updated_at : String
  prompt : String
  model : String
  resolution : String
  duration : Nat
  status : String
  video_url : Option String := none
  openai_job_id : Option String := none
  error_message : Option String := none
  metadata : Option VideoGenerationResponse := none
  image_url : Option String := none
  image_filename : Option String := none
deriving DecidableEq, Repr

/-- Type `VideoGenerationRequest` from `src/lib/sora-api.ts`. -/
structure VideoGenerationRequest where
  prompt : String
  model : String
  resolution : String
  duration : Nat
  imageUrl : Option String := none
deriving DecidableEq, Repr

/-- The reference-image `File` argument; only the name (and, implicitly, the
bytes, which the engine never inspects) matter to the control flow. -/
structure ImageFile where
  name : String
  type : String
deriving DecidableEq, Repr

/-- Type `SoraCreateVideoBody` from `src/lib/sora-api.ts`: the JSON payload of the
creation call. -/
structure SoraCreateVideoBody where
  model : String
  prompt : String
  size : String
  seconds : String
  image : Option String := none
deriving DecidableEq, Repr

/-- What `SoraAPI.createVideo` does before (and at) its first network call.
The source either builds a multipart form and POSTs it, or builds a JSON
body and POSTs it; a `validationReject` constructor is provided so that the
spec's claimed synchronous-rejection behaviour is expressible, but no code
path of the source produces it. -/
inductive CreateVideoAction where
  | multipartCall (model : String) (prompt : String) (size : String)
      (seconds : String) (hasFileReference : Bool)
  | jsonCall (body : SoraCreateVideoBody)
  | validationReject (message : String)
deriving DecidableEq, Repr

/-- Function `SoraAPI.createVideo` (`src/lib/sora-api.ts`, lines 54-167), restricted
to everything that happens before the response arrives: with an input
reference it appends model, prompt, size and seconds (the duration rendered
as a decimal string) to a form and issues the multipart POST; otherwise it
builds the JSON body, copying `request.imageUrl` into `image` when present,
and issues the JSON POST.  No validation of any kind precedes the call. -/
def createVideoFirstAction (request : VideoGenerationRequest)
    (hasInputReference : Bool) (inputReferenceIsFile : Bool) :
    CreateVideoAction :=
  if hasInputReference then
    .multipartCall request.model request.prompt request.resolution
      (toString request.duration) inputReferenceIsFile
  else
    .jsonCall
      { model := request.model
        prompt := request.prompt
        size := request.resolution
        seconds := toString request.duration
        image := request.imageUrl }

/-- One entry of the advisory resolution table. -/
structure ResolutionOption where
  value : String
  label : String
  model : List String
deriving DecidableEq, Repr

/-- Table `RESOLUTION_OPTIONS` from `src/lib/sora-api.ts`: advisory data recording
which models support which resolutions; nothing in the API client consults
it. -/
def RESOLUTION_OPTIONS : List ResolutionOption :=
  [ { value := "1280x720", label := "1280x720 (HD Landscape)",
      model := ["sora-2", "sora-2-pro"] },
    { value := "720x1280", label := "720x1280 (HD Portrait)",
      model := ["sora-2", "sora-2-pro"] },
    { value := "1792x1024", label := "1792x1024 (Full HD Landscape)",
      model := ["sora-2-pro"] },
    { value := "1024x1792", label := "1024x1792 (Full HD Portrait)",
      model := ["sora-2-pro"] } ]

/-- Outcomes of the two storage-side calls made while migrating a finished
video: the remote content download (`soraAPI.downloadContent`) and the
Supabase Storage upload, plus the public URL the bucket reports for the
uploaded object. -/
structure StorageEnv where
  downloadOutcome : EngineResult Unit := .ok ()
  uploadError : Option String := none
  publicUrl : String := ""
deriving DecidableEq, Repr

/-- Method `VideoService.downloadAndStoreVideo` (`src/lib/video-service.ts`, lines
172-197): download the binary (propagating a rejection), upload it to the
`video_files` bucket under the deterministic `generationId/videoId.mp4` key
(throwing `Failed to upload to Supabase Storage: ...` on error), and return
the bucket's public URL. -/
def downloadAndStoreVideo (storage : StorageEnv) : EngineResult String :=
  match storage.downloadOutcome with
  | .err m => .err m
  | .ok _ =>
    match storage.uploadError with
    | some m => .err ("Failed to upload to Supabase Storage: " ++ m)
    | none => .ok storage.publicUrl

/-- Outcomes of the reference-image upload performed by
`VideoService.uploadImage`. -/
structure UploadEnv where
  uploadError : Option String := none
  publicUrl : String := ""
deriving DecidableEq, Repr

/-- Method `VideoService.uploadImage` (`src/lib/video-service.ts`, lines 199-223):
upload the file to the `image_files` bucket under a fresh random key
(throwing `Failed to upload image: ...` on error) and return the public
URL. -/
def uploadImage (upload : UploadEnv) : EngineResult String :=
  match upload.uploadError with
  | some m => .err ("Failed to upload image: " ++ m)
  | none => .ok upload.publicUrl

/-- The `updates` object accumulated by `VideoService.checkVideoStatus`
(`src/lib/video-service.ts`, lines 108-139): a partial row where `none`
means the key is absent from the object. -/
structure ReconcileUpdates where
  metadata : Option VideoGenerationResponse := none
  status : Option String := none
  video_url : Option String := none
  error_message : Option String := none
deriving DecidableEq, Repr

/-- Value of `Object.keys(updates).length` for the updates object. -/
def ReconcileUpdates.keyCount (u : ReconcileUpdates) : Nat :=
  (if u.metadata.isSome then 1 else 0) + (if u.status.isSome then 1 else 0)
    + (if u.video_url.isSome then 1 else 0)
    + (if u.error_message.isSome then 1 else 0)

/-- The repository `update` call: every key present in the updates object
overwrites the corresponding column, every absent key leaves it alone. -/
def applyUpdates (generation : VideoGeneration) (u : ReconcileUpdates) :
    VideoGeneration :=
  { generation with
    metadata := match u.metadata with
      | some m => some m
      | none => generation.metadata
    status := u.status.getD generation.status
    video_url := match u.video_url with
      | some v => some v
      | none => generation.video_url
    error_message := match u.error_message with
      | some e => some e
      | none => generation.error_message }

/-- Message extraction of `src/lib/video-service.ts`, line 133: optional
chaining yields the remote error message when an error object is present,
and the JavaScript or-else operator falls through to the generic text
"Video generation failed" when the error object is absent or its message is
the empty string. -/
def remoteFailureMessage (e : Option RemoteError) : String :=
  match e with
  | some err => if err.message = "" then "Video generation failed" else err.message
  | none => "Video generation failed"

/-- The classification chain of `VideoService.checkVideoStatus`
(`src/lib/video-service.ts`, lines 108-139), which builds the updates object
from the fetched remote `status`: the metadata key is always set to the raw
response; remote `completed` either marks completion outright when
`video_url` is already populated, or runs `downloadAndStoreVideo` and
records its URL (on migration failure: `failed` plus the failure message);
otherwise remote `failed` or a present error object marks failure with
`remoteFailureMessage`; otherwise `processing`/`queued`/`in_progress` maps
to local `processing`; any other status string adds nothing beyond the
metadata key. -/
def classifyUpdates (storage : StorageEnv) (generation : VideoGeneration)
    (status : VideoGenerationResponse) : ReconcileUpdates :=
  let updates : ReconcileUpdates := { metadata := some status }
  if status.status = "completed" then
    match generation.video_url with
    | some _ => { updates with status := some "completed" }
    | none =>
      match downloadAndStoreVideo storage with
      | .ok videoUrl =>
          { updates with status := some "completed", video_url := some videoUrl }
      | .err msg =>
          { updates with status := some "failed", error_message := some msg }
  else if status.status = "failed" ∨ status.error.isSome then
    { updates with
      status := some "failed"
      error_message := some (remoteFailureMessage status.error) }
  else if status.status = "processing" ∨ status.status = "queued"
      ∨ status.status = "in_progress" then
    { updates with status := some "processing" }
  else
    updates

/-- The persistence step of `VideoService.checkVideoStatus`
(`src/lib/video-service.ts`, lines 141-151): the repository `update` is
issued only when the updates object has more than one key (it always has at
least the metadata key); a failed update is logged and swallowed, leaving
the row as it was; a successful update applies the partial row.  The value
returned is the row the closing re-select reads back. -/
def persistStep (updateError : Option String) (generation : VideoGeneration)
    (updates : ReconcileUpdates) : VideoGeneration :=
  if updates.keyCount > 1 then
    match updateError with
    | some _ => generation
    | none => applyUpdates generation updates
  else
    generation

/-- Outcomes of the external calls one `checkVideoStatus` invocation makes:
the remote status fetch (`soraAPI.getVideo`), the storage environment for a
potential artifact migration, and the repository error (if any) of the
status-update write. -/
structure ReconcileEnv where
  fetchResult : EngineResult VideoGenerationResponse
  storage : StorageEnv := {}
  updateError : Option String := none
deriving DecidableEq, Repr

/-- Method `VideoService.checkVideoStatus` (`src/lib/video-service.ts`, lines
80-170).  The row addressed by the generation id is `db`; the function
returns the value handed to the caller together with the row after the
call.  An absent row makes the initial `.single()` select report an error,
which is rethrown as `Failed to fetch generation: ...`; a row without
`openai_job_id` is returned unchanged; a rejected status fetch is caught,
logged and answered with the previously loaded row; otherwise the updates
object is classified, conditionally persisted, and the re-selected row is
returned. -/
def checkVideoStatus (env : ReconcileEnv) (db : Option VideoGeneration) :
    EngineResult VideoGeneration × Option VideoGeneration :=
  match db with
  | none => (.err "Failed to fetch generation: no rows returned", none)
  | some generation =>
    match generation.openai_job_id with
    | none => (.ok generation, some generation)
    | some _ =>
      match env.fetchResult with
      | .err _ => (.ok generation, some generation)
      | .ok status =>
        let updated := persistStep env.updateError generation
          (classifyUpdates env.storage generation status)
        (.ok updated, some updated)

/-- Outcomes of the external calls one `createVideoGeneration` invocation
makes: the reference-image upload, the insert of the fresh row (with the
repository-assigned id and timestamps on success), and the remote
submission (`soraAPI.createVideo`). -/
structure CreateEnv where
  imageUpload : UploadEnv := {}
  insertError : Option String := none
  insertedId : String := ""
  insertedCreatedAt : String := ""
  insertedUpdatedAt : String := ""
  submitResult : EngineResult VideoGenerationResponse
deriving DecidableEq, Repr

/-- Method `VideoService.createVideoGeneration` (`src/lib/video-service.ts`, lines
11-78).  When a reference image is supplied it is uploaded first and a
rejection aborts the call before any row exists.  The fresh row is then
inserted with status `pending` (an insert error is rethrown as
`Failed to save video generation: ...`).  Remote submission follows: on
success the row is updated with the remote id, status `processing` and the
raw response as metadata, and the re-selected row is returned; on rejection
the row is updated to `failed` with the error's message and the rejection
is rethrown.  The source does not inspect the results of these two
post-insert writes, so they are modelled as applied. -/
def createVideoGeneration (env : CreateEnv) (request : VideoGenerationRequest)
    (imageFile : Option ImageFile) :
    EngineResult VideoGeneration × Option VideoGeneration :=
  let uploadStep : EngineResult (Option String × Option String) :=
    match imageFile with
    | some f =>
      match uploadImage env.imageUpload with
      | .ok url => .ok (some url, some f.name)
      | .err m => .err m
    | none => .ok (none, none)
  match uploadStep with
  | .err m => (.err m, none)
  | .ok (imageUrl, imageFilename) =>
    match env.insertError with
    | some m => (.err ("Failed to save video generation: " ++ m), none)
    | none =>
      let data : VideoGeneration :=
        { id := env.insertedId
          created_at := env.insertedCreatedAt
          updated_at := env.insertedUpdatedAt
          prompt := request.prompt
          model := request.model
          resolution := request.resolution
          duration := request.duration
          status := "pending"
          image_url := imageUrl
          image_filename := imageFilename }
      match env.submitResult with
      | .ok response =>
        let updated := { data with
          openai_job_id := some response.id
          status := "processing"
          metadata := some response }
        (.ok updated, some updated)
      | .err m =>
        let failed := { data with
          status := "failed"
          error_message := some m }
        (.err m, some failed)

/-- Method `VideoService.listVideoGenerations` (`src/lib/video-service.ts`, lines
225-237): a repository error is rethrown as
`Failed to list video generations: ...`; otherwise `data || []` is
returned. -/
def listVideoGenerations
    (outcome : EngineResult (Option (List VideoGeneration))) :
    EngineResult (List VideoGeneration) :=
  match outcome with
  | .err m => .err ("Failed to list video generations: " ++ m)
  | .ok d => .ok (d.getD [])

/-- Method `VideoService.deleteVideoGeneration` (`src/lib/video-service.ts`, lines
239-248): a repository error is rethrown as
`Failed to delete video generation: ...`. -/
def deleteVideoGeneration (deleteError : Option String) :
    EngineResult Unit :=
  match deleteError with
  | some m => .err ("Failed to delete video generation: " ++ m)
  | none => .ok ()

/-! Sample values used by witnesses and counterexamples. -/

/-- A job row mid-flight: submitted to the remote API, still processing. -/
def sampleJob : VideoGeneration :=
  { id := "gen-1"
    created_at := "2025-10-21T00:00:00Z"
    updated_at := "2025-10-21T00:05:00Z"
    prompt := "a red fox"
    model := "sora-2"
    resolution := "1280x720"
    duration := 4
    status := "processing"
    openai_job_id := some "video-1" }

/-- A remote status payload for `sampleJob`'s remote job. -/
def sampleRemote (st : String) : VideoGenerationResponse :=
  { id := "video-1"
    object := "video"
    model := "sora-2"
    status := st
    prompt := "a red fox"
    created_at := 100 }

/-- A request matching the happy-path scenario. -/
def sampleRequest : VideoGenerationRequest :=
  { prompt := "a red fox"
    model := "sora-2"
    resolution := "1280x720"
    duration := 4 }

/-- First reconcile environment of the C1 witness: remote reports
`completed`, the download and the upload both succeed, the status write
succeeds. -/
def c1Env1 : ReconcileEnv :=
  { fetchResult := .ok (sampleRemote "completed")
    storage :=
      { downloadOutcome := .ok ()
        uploadError := none
        publicUrl := "https://cdn.example/video_files/gen-1/video-1.mp4" } }

/-- Second reconcile environment of the C1 witness: remote still reports
`completed` (a slightly newer payload). -/
def c1Env2 : ReconcileEnv :=
  { fetchResult := .ok { sampleRemote "completed" with created_at := 102 } }

/-- A job the first reconcile already completed and migrated. -/
def c3Job : VideoGeneration :=
  { sampleJob with
    status := "completed"
    video_url := some "https://cdn.example/video_files/gen-1/video-1.mp4"
    metadata := some (sampleRemote "completed") }

/-- Reconcile environment for C3: the remote fetch now reports
`processing` again. -/
def c3Env : ReconcileEnv := { fetchResult := .ok (sampleRemote "processing") }

/-- Reconcile environment for C9: the remote fetch succeeds but the status
update write fails with a repository error. -/
def c9Env : ReconcileEnv :=
  { fetchResult := .ok (sampleRemote "in_progress")
    updateError := some "row violates row-level security policy" }

/-- The remote error object of the C10 witness. -/
def c10Err : RemoteError :=
  { message := "policy violation"
    type := "server_error"
    code := "moderation_blocked" }

/-- A `completed` remote payload that nevertheless carries an error
object. -/
def c10Resp : VideoGenerationResponse :=
  { sampleRemote "completed" with error := some c10Err }

/-- Reconcile environment for C10: the fetch returns the conflicting
payload and the migration would succeed. -/
def c10Env : ReconcileEnv :=
  { fetchResult := .ok c10Resp
    storage :=
      { downloadOutcome := .ok ()
        uploadError := none
        publicUrl := "https://cdn.example/video_files/gen-1/video-1.mp4" } }

/-- The stale payload sitting in `metadata` before the C4 reconcile call. -/
def c4Stale : VideoGenerationResponse := sampleRemote "queued"

/-- The freshly fetched payload with an unrecognized status and no error. -/
def c4Fresh : VideoGenerationResponse :=
  { sampleRemote "archived" with created_at := 101 }

/-- A processing job whose stored metadata is the stale payload. -/
def c4Job : VideoGeneration := { sampleJob with metadata := some c4Stale }

/-- Reconcile environment for C4: the fetch succeeds with the unknown
status. -/
def c4Env : ReconcileEnv := { fetchResult := .ok c4Fresh }

/-- A submission pairing the base-tier model with a higher-tier-only
resolution. -/
def c6Request : VideoGenerationRequest :=
  { prompt := "a red fox"
    model := "sora-2"
    resolution := "1792x1024"
    duration := 4 }

/-! Helper lemmas shared by several claims. -/

/-- Reconciling an existing row always resolves: whatever the remote fetch,
the migration and the update write do, the call returns `ok` with the row it
re-selected. -/
theorem checkVideoStatus_some_ok (env : ReconcileEnv) (g : VideoGeneration) :
    ∃ r, checkVideoStatus env (some g) = (.ok r, some r) := by
  cases hj : g.openai_job_id with
  | none => exact ⟨g, by simp [checkVideoStatus, hj]⟩
  | some j =>
    cases hf : env.fetchResult with
    | err m => exact ⟨g, by simp [checkVideoStatus, hj, hf]⟩
    | ok s =>
      exact ⟨persistStep env.updateError g (classifyUpdates env.storage g s),
        by simp [checkVideoStatus, hj, hf]⟩

/-- The classification chain only ever proposes `completed`, `failed` or
`processing` as a new status (or no status at all). -/
theorem classifyUpdates_status_cases (storage : StorageEnv)
    (g : VideoGeneration) (s : VideoGenerationResponse) :
    (classifyUpdates storage g s).status = none
      ∨ (classifyUpdates storage g s).status = some "completed"
      ∨ (classifyUpdates storage g s).status = some "failed"
      ∨ (classifyUpdates storage g s).status = some "processing" := by
  unfold classifyUpdates
  split
  · cases g.video_url with
    | some u => simp
    | none =>
      cases downloadAndStoreVideo storage with
      | ok u => simp
      | err m => simp
  · split
    · simp
    · split <;> simp

/-- The persisted row's status is either the old one or the one the updates
object proposes. -/
theorem persistStep_status (ue : Option String) (g : VideoGeneration)
    (u : ReconcileUpdates) :
    (persistStep ue g u).status = g.status
      ∨ (persistStep ue g u).status = u.status.getD g.status := by
  unfold persistStep
  split
  · cases ue with
    | some m => exact Or.inl rfl
    | none => exact Or.inr rfl
  · exact Or.inl rfl

/-- C2: transient-error isolation.  If the remote status fetch rejects, the
reconcile call on an existing row with a remote job id swallows the error,
persists nothing, and hands back the previously loaded row with every field
unchanged. -/
theorem C2_transient_error_isolation
    (env : ReconcileEnv) (g : VideoGeneration) (j e : String)
    (hj : g.openai_job_id = some j)
    (hf : env.fetchResult = .err e) :
    checkVideoStatus env (some g) = (.ok g, some g) := by
  simp [checkVideoStatus, hj, hf]

/-- Witness for C2 at a concrete job and a concrete network failure. -/
theorem C2_transient_error_isolation_witness :
    sampleJob.openai_job_id = some "video-1"
      ∧ checkVideoStatus { fetchResult := .err "network unreachable" }
          (some sampleJob) = (.ok sampleJob, some sampleJob) :=
  ⟨rfl, C2_transient_error_isolation { fetchResult := .err "network unreachable" }
    sampleJob "video-1" "network unreachable" rfl rfl⟩

/-- C8: `checkVideoStatus` throws exactly when the addressed row is absent;
a row without a remote job id is returned unchanged without throwing, and a
rejected remote fetch never makes the call throw. -/
theorem C8_reconcile_raises_iff (env : ReconcileEnv)
    (db : Option VideoGeneration) :
    ((∃ m, (checkVideoStatus env db).1 = .err m) ↔ db = none)
      ∧ (∀ g, db = some g → g.openai_job_id = none →
          checkVideoStatus env db = (.ok g, some g))
      ∧ (∀ g j e, db = some g → g.openai_job_id = some j →
          env.fetchResult = .err e →
          checkVideoStatus env db = (.ok g, some g)) := by
  refine ⟨⟨?_, ?_⟩, ?_, ?_⟩
  · rintro ⟨m, hm⟩
    cases db with
    | none => rfl
    | some g =>
      obtain ⟨r, hr⟩ := checkVideoStatus_some_ok env g
      rw [hr] at hm
      exact absurd hm (by simp)
  · rintro rfl
    exact ⟨"Failed to fetch generation: no rows returned", rfl⟩
  · rintro g rfl hnone
    simp [checkVideoStatus, hnone]
  · rintro g j e rfl hj hf
    simp [checkVideoStatus, hj, hf]

/-- Witness for C8: a missing row makes the call throw, and a row that was
never submitted remotely is handed back as is. -/
theorem C8_reconcile_raises_iff_witness :
    (∃ m, (checkVideoStatus { fetchResult := .err "offline" } none).1 = .err m)
      ∧ checkVideoStatus { fetchResult := .err "offline" }
          (some { sampleJob with openai_job_id := none }) =
        (.ok { sampleJob with openai_job_id := none },
         some { sampleJob with openai_job_id := none }) :=
  ⟨(C8_reconcile_raises_iff { fetchResult := .err "offline" } none).1.mpr rfl,
   (C8_reconcile_raises_iff { fetchResult := .err "offline" }
      (some { sampleJob with openai_job_id := none })).2.1
     { sampleJob with openai_job_id := none } rfl rfl⟩

/-- C4, counterexample: the remote fetch succeeds with the unrecognized
status `archived` and a null error, the local status is indeed left
unchanged — but the refreshed payload is NOT persisted: the row after the
call still carries the stale metadata, contradicting the claim that the raw
remote payload is written into `metadata`. -/
theorem C4_counterexample :
    c4Env.fetchResult = .ok c4Fresh
      ∧ c4Fresh.status = "archived"
      ∧ c4Fresh.error = none
      ∧ checkVideoStatus c4Env (some c4Job) = (.ok c4Job, some c4Job)
      ∧ c4Job.metadata ≠ some c4Fresh := by
  refine ⟨rfl, rfl, rfl, by decide, by decide⟩

/-- C4, amended: when the remote fetch succeeds with a status string outside
the recognized vocabulary and a null error object, nothing is persisted at
all — the updates object holds only the metadata key, the
`Object.keys(updates).length > 1` guard skips the repository write, and the
call returns the row byte-for-byte unchanged (stale metadata included). -/
theorem C4_amended_unknown_status_no_write
    (env : ReconcileEnv) (g : VideoGeneration) (s : VideoGenerationResponse)
    (j : String)
    (hj : g.openai_job_id = some j)
    (hf : env.fetchResult = .ok s)
    (h1 : s.status ≠ "completed")
    (h2 : s.status ≠ "failed")
    (he : s.error = none)
    (h3 : s.status ≠ "processing")
    (h4 : s.status ≠ "queued")
    (h5 : s.status ≠ "in_progress") :
    checkVideoStatus env (some g) = (.ok g, some g) := by
  simp [checkVideoStatus, classifyUpdates, persistStep,
    ReconcileUpdates.keyCount, hj, hf, h1, h2, h3, h4, h5, he]

/-- Witness for the amended C4 at the concrete `archived` payload. -/
theorem C4_amended_unknown_status_no_write_witness :
    c4Job.openai_job_id = some "video-1"
      ∧ c4Env.fetchResult = .ok c4Fresh
      ∧ c4Fresh.status ≠ "completed" ∧ c4Fresh.error = none
      ∧ checkVideoStatus c4Env (some c4Job) = (.ok c4Job, some c4Job) :=
  ⟨rfl, rfl, by decide, rfl,
   C4_amended_unknown_status_no_write c4Env c4Job c4Fresh "video-1" rfl rfl
     (by decide) (by decide) rfl (by decide) (by decide) (by decide)⟩

/-- C7: fail-fast reference-image upload.  With a reference image supplied,
a rejected storage upload aborts the whole create call — the thrown message
is the upload failure, no row is ever inserted (`none`), and neither the
insert nor the remote submission outcome can influence the result. -/
theorem C7_fail_fast_reference_image
    (env : CreateEnv) (request : VideoGenerationRequest) (f : ImageFile)
    (m : String)
    (himg : env.imageUpload.uploadError = some m) :
    createVideoGeneration env request (some f) =
      (.err ("Failed to upload image: " ++ m), none) := by
  simp [createVideoGeneration, uploadImage, himg]

/-- Witness for C7: a concrete create call whose image upload fails leaves
no row behind, whatever the submission outcome would have been. -/
theorem C7_fail_fast_reference_image_witness :
    ({ imageUpload := { uploadError := some "bucket quota exceeded" }
       submitResult := .ok (sampleRemote "queued") } : CreateEnv).imageUpload.uploadError
        = some "bucket quota exceeded"
      ∧ createVideoGeneration
          { imageUpload := { uploadError := some "bucket quota exceeded" }
            submitResult := .ok (sampleRemote "queued") }
          { prompt := "a red fox", model := "sora-2",
            resolution := "1280x720", duration := 4 }
          (some { name := "fox.png", type := "image/png" }) =
        (.err ("Failed to upload image: " ++ "bucket quota exceeded"), none) :=
  ⟨rfl,
   C7_fail_fast_reference_image
     { imageUpload := { uploadError := some "bucket quota exceeded" }
       submitResult := .ok (sampleRemote "queued") }
     { prompt := "a red fox", model := "sora-2",
       resolution := "1280x720", duration := 4 }
     { name := "fox.png", type := "image/png" }
     "bucket quota exceeded" rfl⟩

/-- C5: create-failure consistency.  When the row was inserted and the
remote submission rejects, the stored row ends `failed` with the failure's
message as a non-null `error_message`, and the create call re-raises the
very same error to its caller. -/
theorem C5_create_failure_consistency
    (env : CreateEnv) (request : VideoGenerationRequest)
    (imageFile : Option ImageFile) (m : String)
    (hs : env.submitResult = .err m)
    (hins : env.insertError = none)
    (hup : imageFile = none ∨ env.imageUpload.uploadError = none) :
    ∃ failed : VideoGeneration,
      createVideoGeneration env request imageFile = (.err m, some failed)
        ∧ failed.status = "failed"
        ∧ failed.error_message = some m
        ∧ failed.error_message ≠ none := by
  cases imageFile with
  | none =>
    refine ⟨{ id := env.insertedId
              created_at := env.insertedCreatedAt
              updated_at := env.insertedUpdatedAt
              prompt := request.prompt
              model := request.model
              resolution := request.resolution
              duration := request.duration
              status := "failed"
              error_message := some m }, ?_, rfl, rfl, by simp⟩
    simp [createVideoGeneration, hins, hs]
  | some f =>
    rcases hup with hup | hup
    · exact absurd hup (by simp)
    · refine ⟨{ id := env.insertedId
                created_at := env.insertedCreatedAt
                updated_at := env.insertedUpdatedAt
                prompt := request.prompt
                model := request.model
                resolution := request.resolution
                duration := request.duration
                status := "failed"
                error_message := some m
                image_url := some env.imageUpload.publicUrl
                image_filename := some f.name }, ?_, rfl, rfl, by simp⟩
      simp [createVideoGeneration, uploadImage, hup, hins, hs]

/-- Witness for C5: a concrete create call whose remote submission rejects
with a moderation message. -/
theorem C5_create_failure_consistency_witness :
    ({ insertedId := "gen-2", submitResult := .err "content policy" } :
        CreateEnv).submitResult = .err "content policy"
      ∧ ∃ failed : VideoGeneration,
          createVideoGeneration
            { insertedId := "gen-2", submitResult := .err "content policy" }
            { prompt := "a red fox", model := "sora-2",
              resolution := "1280x720", duration := 4 }
            none = (.err "content policy", some failed)
            ∧ failed.status = "failed"
            ∧ failed.error_message = some "content policy"
            ∧ failed.error_message ≠ none :=
  ⟨rfl,
   C5_create_failure_consistency
     { insertedId := "gen-2", submitResult := .err "content policy" }
     { prompt := "a red fox", model := "sora-2",
       resolution := "1280x720", duration := 4 }
     none "content policy" rfl rfl (Or.inl rfl)⟩

/-- C1: artifact migration is idempotent.  Starting from a not-yet-migrated
job, a first reconcile whose remote fetch reports `completed` and whose
download/upload succeed stores the artifact URL and marks the job
`completed`; a second reconcile that again sees `completed` finds the
non-null `video_url`, marks `completed` without consulting storage at all
(the result is the same for every storage environment, so no download and
no upload happen), and returns the same artifact URL as the first call. -/
theorem C1_idempotent_migration
    (g : VideoGeneration) (j : String) (env1 env2 : ReconcileEnv)
    (s1 s2 : VideoGenerationResponse)
    (hj : g.openai_job_id = some j)
    (hv : g.video_url = none)
    (hf1 : env1.fetchResult = .ok s1)
    (hs1 : s1.status = "completed")
    (hd1 : env1.storage.downloadOutcome = .ok ())
    (hu1 : env1.storage.uploadError = none)
    (hw1 : env1.updateError = none)
    (hf2 : env2.fetchResult = .ok s2)
    (hs2 : s2.status = "completed")
    (hw2 : env2.updateError = none) :
    ∃ g1 g2 : VideoGeneration,
      checkVideoStatus env1 (some g) = (.ok g1, some g1)
        ∧ g1.status = "completed"
        ∧ g1.video_url = some env1.storage.publicUrl
        ∧ (∀ st : StorageEnv,
            checkVideoStatus { env2 with storage := st } (some g1) =
              checkVideoStatus env2 (some g1))
        ∧ checkVideoStatus env2 (some g1) = (.ok g2, some g2)
        ∧ g2.video_url = g1.video_url
        ∧ g2.status = "completed" := by
  refine ⟨{ g with
            status := "completed"
            video_url := some env1.storage.publicUrl
            metadata := some s1 },
          { g with
            status := "completed"
            video_url := some env1.storage.publicUrl
            metadata := some s2 },
          ?_, rfl, rfl, ?_, ?_, rfl, rfl⟩
  · simp [checkVideoStatus, classifyUpdates, persistStep, applyUpdates,
      downloadAndStoreVideo, ReconcileUpdates.keyCount,
      hj, hv, hf1, hs1, hd1, hu1, hw1]
  · intro st
    simp [checkVideoStatus, classifyUpdates, persistStep, applyUpdates,
      ReconcileUpdates.keyCount, hj, hf2, hs2, hw2]
  · simp [checkVideoStatus, classifyUpdates, persistStep, applyUpdates,
      ReconcileUpdates.keyCount, hj, hf2, hs2, hw2]

/-- Witness for C1: two concrete back-to-back reconcile calls on a job whose
remote reports `completed`. -/
theorem C1_idempotent_migration_witness :
    sampleJob.openai_job_id = some "video-1"
      ∧ sampleJob.video_url = none
      ∧ c1Env1.fetchResult = .ok (sampleRemote "completed")
      ∧ c1Env2.updateError = none
      ∧ ∃ g1 g2 : VideoGeneration,
          checkVideoStatus c1Env1 (some sampleJob) = (.ok g1, some g1)
            ∧ g1.status = "completed"
            ∧ g1.video_url = some c1Env1.storage.publicUrl
            ∧ (∀ st : StorageEnv,
                checkVideoStatus { c1Env2 with storage := st } (some g1) =
                  checkVideoStatus c1Env2 (some g1))
            ∧ checkVideoStatus c1Env2 (some g1) = (.ok g2, some g2)
            ∧ g2.video_url = g1.video_url
            ∧ g2.status = "completed" :=
  ⟨rfl, rfl, rfl, rfl,
   C1_idempotent_migration sampleJob "video-1" c1Env1 c1Env2
     (sampleRemote "completed") { sampleRemote "completed" with created_at := 102 }
     rfl rfl rfl rfl rfl rfl rfl rfl rfl rfl⟩

/-- C3, counterexample: local status is `completed` (terminal), yet a
reconcile whose remote fetch reports `processing` persists `processing`,
regressing the terminal status — the code never guards on the locally
stored status before applying the remote classification. -/
theorem C3_counterexample :
    c3Job.status = "completed"
      ∧ c3Env.fetchResult = .ok (sampleRemote "processing")
      ∧ checkVideoStatus c3Env (some c3Job) =
          (.ok { c3Job with
                 status := "processing"
                 metadata := some (sampleRemote "processing") },
           some { c3Job with
                  status := "processing"
                  metadata := some (sampleRemote "processing") })
      ∧ ({ c3Job with
           status := "processing"
           metadata := some (sampleRemote "processing") } :
              VideoGeneration).status = "processing" := by
  refine ⟨rfl, rfl, by decide, rfl⟩

/-- C3, amended: the only part of the monotonicity claim the code honors is
that no reconcile call ever writes `pending` — after any reconcile, the
stored status is `pending` only if it already was `pending` and was left
untouched.  Terminal states are not sticky: as the counterexample shows, a
remote `processing` report drags a locally `completed` job back to
`processing`. -/
theorem C3_amended_never_regresses_to_pending
    (env : ReconcileEnv) (db : Option VideoGeneration) (g' : VideoGeneration)
    (h : (checkVideoStatus env db).2 = some g')
    (hp : g'.status = "pending") :
    ∃ g, db = some g ∧ g.status = "pending" := by
  cases db with
  | none => simp [checkVideoStatus] at h
  | some g =>
    refine ⟨g, rfl, ?_⟩
    cases hj : g.openai_job_id with
    | none =>
      simp [checkVideoStatus, hj] at h
      subst h
      exact hp
    | some j =>
      cases hf : env.fetchResult with
      | err m =>
        simp [checkVideoStatus, hj, hf] at h
        subst h
        exact hp
      | ok s =>
        simp [checkVideoStatus, hj, hf] at h
        have hps : g'.status =
            ((classifyUpdates env.storage g s).status).getD g.status ∨
            g'.status = g.status := by
          rcases persistStep_status env.updateError g
              (classifyUpdates env.storage g s) with hst | hst
          · exact Or.inr (h ▸ hst)
          · exact Or.inl (h ▸ hst)
        rcases hps with hps | hps
        · rcases classifyUpdates_status_cases env.storage g s with
            hc | hc | hc | hc
          · rw [hc] at hps
            simp at hps
            rw [← hps]
            exact hp
          · rw [hc] at hps
            simp at hps
            rw [hp] at hps
            exact absurd hps (by decide)
          · rw [hc] at hps
            simp at hps
            rw [hp] at hps
            exact absurd hps (by decide)
          · rw [hc] at hps
            simp at hps
            rw [hp] at hps
            exact absurd hps (by decide)
        · rw [← hps]
          exact hp

/-- Witness for the amended C3: a pending job reconciled while the remote is
unreachable stays pending, and the call indeed started from a pending
row. -/
theorem C3_amended_never_regresses_to_pending_witness :
    ((checkVideoStatus { fetchResult := .err "offline" }
        (some { sampleJob with status := "pending" })).2 =
      some { sampleJob with status := "pending" })
      ∧ ∃ g, some { sampleJob with status := "pending" } = some g
          ∧ g.status = "pending" :=
  ⟨rfl,
   C3_amended_never_regresses_to_pending { fetchResult := .err "offline" }
     (some { sampleJob with status := "pending" })
     { sampleJob with status := "pending" } rfl rfl⟩

/-- C9, counterexample: during reconcile the classification demands a status
write (`keyCount > 1`) and the repository rejects that write, yet the call
still returns `ok` with the stale row — the repository error is logged and
swallowed, not raised to the caller as the claim requires. -/
theorem C9_counterexample :
    c9Env.updateError = some "row violates row-level security policy"
      ∧ (classifyUpdates c9Env.storage sampleJob
          (sampleRemote "in_progress")).keyCount > 1
      ∧ checkVideoStatus c9Env (some sampleJob) = (.ok sampleJob, some sampleJob)
      ∧ ∀ m, (checkVideoStatus c9Env (some sampleJob)).1 ≠ .err m := by
  refine ⟨rfl, by decide, by decide, ?_⟩
  intro m h
  have hok : checkVideoStatus c9Env (some sampleJob) =
      (.ok sampleJob, some sampleJob) := by decide
  rw [hok] at h
  exact absurd h (by simp)

/-- C9, amended: repository failures of the list query, the delete, the
create-time insert and the reconcile-time record load are all raised to the
caller; the one exception is the status-update write inside reconcile, whose
failure is logged and swallowed — reconcile on an existing row always
returns `ok`. -/
theorem C9_amended_repository_error_surfacing :
    (∀ m, listVideoGenerations (.err m) =
        .err ("Failed to list video generations: " ++ m))
      ∧ (∀ m, deleteVideoGeneration (some m) =
          .err ("Failed to delete video generation: " ++ m))
      ∧ (∀ (env : CreateEnv) (request : VideoGenerationRequest) (m : String),
          env.insertError = some m →
          createVideoGeneration env request none =
            (.err ("Failed to save video generation: " ++ m), none))
      ∧ (∀ env : ReconcileEnv, (checkVideoStatus env none).1 =
          .err "Failed to fetch generation: no rows returned")
      ∧ (∀ (env : ReconcileEnv) (g : VideoGeneration),
          ∃ r, checkVideoStatus env (some g) = (.ok r, some r)) := by
  refine ⟨fun m => rfl, fun m => rfl, ?_, fun env => rfl,
    fun env g => checkVideoStatus_some_ok env g⟩
  intro env request m hm
  simp [createVideoGeneration, hm]

/-- Witness for the amended C9 at a concrete failing insert. -/
theorem C9_amended_repository_error_surfacing_witness :
    ({ insertError := some "duplicate key"
       submitResult := .ok (sampleRemote "queued") } : CreateEnv).insertError
        = some "duplicate key"
      ∧ createVideoGeneration
          { insertError := some "duplicate key"
            submitResult := .ok (sampleRemote "queued") }
          sampleRequest none =
        (.err ("Failed to save video generation: " ++ "duplicate key"), none) :=
  ⟨rfl,
   C9_amended_repository_error_surfacing.2.2.1
     { insertError := some "duplicate key"
       submitResult := .ok (sampleRemote "queued") }
     sampleRequest "duplicate key" rfl⟩

/-- C10: `completed` takes precedence over a present error object.  When the
fetched payload reports `completed` together with a non-null error, the job
is classified as completed and artifact migration runs (successfully here);
the error object marks the job `failed` only when the reported status is not
`completed`. -/
theorem C10_completed_overrides_error
    (env : ReconcileEnv) (g : VideoGeneration) (s : VideoGenerationResponse)
    (j : String) (e : RemoteError)
    (hj : g.openai_job_id = some j)
    (hf : env.fetchResult = .ok s)
    (he : s.error = some e)
    (hw : env.updateError = none) :
    (s.status = "completed" → g.video_url = none →
      env.storage.downloadOutcome = .ok () → env.storage.uploadError = none →
      checkVideoStatus env (some g) =
        (.ok { g with
               status := "completed"
               video_url := some env.storage.publicUrl
               metadata := some s },
         some { g with
                status := "completed"
                video_url := some env.storage.publicUrl
                metadata := some s }))
      ∧ (s.status ≠ "completed" →
        checkVideoStatus env (some g) =
          (.ok { g with
                 status := "failed"
                 error_message := some (remoteFailureMessage (some e))
                 metadata := some s },
           some { g with
                  status := "failed"
                  error_message := some (remoteFailureMessage (some e))
                  metadata := some s })) := by
  constructor
  · intro hc hv hd hu
    simp [checkVideoStatus, classifyUpdates, persistStep, applyUpdates,
      downloadAndStoreVideo, ReconcileUpdates.keyCount,
      hj, hf, hc, hv, hd, hu, hw]
  · intro hc
    simp [checkVideoStatus, classifyUpdates, persistStep, applyUpdates,
      ReconcileUpdates.keyCount, hj, hf, hc, he, hw]

/-- Witness for C10: a concrete `completed` payload carrying an error object
still gets migrated and marked completed. -/
theorem C10_completed_overrides_error_witness :
    c10Resp.status = "completed"
      ∧ c10Resp.error = some c10Err
      ∧ sampleJob.video_url = none
      ∧ checkVideoStatus c10Env (some sampleJob) =
        (.ok { sampleJob with
               status := "completed"
               video_url := some "https://cdn.example/video_files/gen-1/video-1.mp4"
               metadata := some c10Resp },
         some { sampleJob with
                status := "completed"
                video_url := some "https://cdn.example/video_files/gen-1/video-1.mp4"
                metadata := some c10Resp }) :=
  ⟨rfl, rfl, rfl,
   (C10_completed_overrides_error c10Env sampleJob c10Resp "video-1" c10Err
     rfl rfl rfl rfl).1 rfl rfl rfl rfl⟩

/-- C6, counterexample: submitting the base-tier model `sora-2` with the
higher-tier-only resolution `1792x1024` is NOT rejected synchronously — the
API client's very first action is the JSON network call carrying exactly
that model/resolution pair (no `validationReject` ever occurs), and the
service-level create proceeds all the way to remote submission and a
`processing` record.  The base-tier restriction exists only as advisory
`RESOLUTION_OPTIONS` data. -/
theorem C6_counterexample :
    c6Request.model = "sora-2"
      ∧ c6Request.resolution = "1792x1024"
      ∧ (∀ o ∈ RESOLUTION_OPTIONS, o.value = "1792x1024" →
          o.model = ["sora-2-pro"])
      ∧ createVideoFirstAction c6Request false false =
          .jsonCall { model := "sora-2"
                      prompt := "a red fox"
                      size := "1792x1024"
                      seconds := "4"
                      image := none }
      ∧ (∀ m, createVideoFirstAction c6Request false false ≠
          .validationReject m)
      ∧ (createVideoGeneration { submitResult := .ok (sampleRemote "queued") }
          c6Request none).1 =
        .ok { id := ""
              created_at := ""
              updated_at := ""
              prompt := "a red fox"
              model := "sora-2"
              resolution := "1792x1024"
              duration := 4
              status := "processing"
              openai_job_id := some "video-1"
              metadata := some (sampleRemote "queued") } := by
  refine ⟨rfl, rfl, by decide, by decide, ?_, by decide⟩
  intro m h
  rw [show createVideoFirstAction c6Request false false =
      .jsonCall { model := "sora-2"
                  prompt := "a red fox"
                  size := "1792x1024"
                  seconds := "4"
                  image := none } from by decide] at h
  exact absurd h (by simp)

/-- C6, amended: the engine performs no model/resolution cross-validation at
all.  For every request, `createVideo` issues a network call as its first
action — the JSON POST when no input reference is given, the multipart POST
otherwise — whatever the model/resolution pair; the pairing restriction
lives only in the advisory `RESOLUTION_OPTIONS` table, which marks
`1792x1024` and `1024x1792` as supported by `sora-2-pro` alone. -/
theorem C6_amended_no_cross_validation
    (request : VideoGenerationRequest) (isFile : Bool) :
    createVideoFirstAction request false isFile =
      .jsonCall { model := request.model
                  prompt := request.prompt
                  size := request.resolution
                  seconds := toString request.duration
                  image := request.imageUrl }
      ∧ createVideoFirstAction request true isFile =
        .multipartCall request.model request.prompt request.resolution
          (toString request.duration) isFile
      ∧ RESOLUTION_OPTIONS.map (fun o => (o.value, o.model)) =
        [("1280x720", ["sora-2", "sora-2-pro"]),
         ("720x1280", ["sora-2", "sora-2-pro"]),
         ("1792x1024", ["sora-2-pro"]),
         ("1024x1792", ["sora-2-pro"])] := by
  refine ⟨by simp [createVideoFirstAction], by simp [createVideoFirstAction],
    by decide⟩

end Sora2Tool
